import Mathlib

/-!
Verification of the typed effect composition and tracing-propagation core of
the `codesandbox-worker` repository, together with the concrete business-logic
pipeline (`tracing-example.ts`) and its HTTP trigger variants.

The combinator core (effect descriptions, interpreter, span propagation) is the
`effect` library, which is an external dependency of the repository; it is
modelled from the specification.  The business-logic pipeline, the repository
stub, the error classes and the HTTP trigger handlers are translated directly
from the repository sources (`README.md` / `tracing-example.ts`,
`unnamed/part_001`, `unnamed/part_002`, `unnamed/part_003`).
-/

/-- Modelled from the spec: the status of a tracing span (§3, §4.4).  A closed
span records either ok or error. -/
inductive SpanStatus where
  | ok : SpanStatus
  | error : SpanStatus
deriving DecidableEq, Repr

/-- Modelled from the spec: a span that is still open: a name and an attribute
map (string-keyed, scalar-valued, §3). -/
structure OpenSpan where
  name : String
  attrs : List (String × String)
deriving DecidableEq, Repr

/-- Modelled from the spec: a closed span as seen by the exporter: name, final
attributes, and status (§4.4, §6). -/
structure ClosedSpan where
  name : String
  attrs : List (String × String)
  status : SpanStatus
deriving DecidableEq, Repr

/-- Modelled from the spec: the interpreter's execution state (§4.5, §9): the
current-span stack (head = ambient span), the list of closed spans (most
recently closed first), the log, a logical clock advanced by `sleep`, and a
cancellation budget consumed at suspension points — when it is exhausted at a
suspension point the run is cancelled mid-flight (§5). -/
structure RunState where
  stack : List OpenSpan
  closed : List ClosedSpan
  log : List String
  clock : Nat
  fuel : Nat
deriving DecidableEq, Repr

/-- Modelled from the spec: the terminal result of a run: the three-channel
Outcome (§3) extended with the distinguished `Interrupted` state produced by
cancellation (§5).  A Defect carries its original cause. -/
inductive RunResult (E A : Type) where
  | success : A → RunResult E A
  | failure : E → RunResult E A
  | defect : E → RunResult E A
  | interrupted : RunResult E A
deriving DecidableEq, Repr

/-- Modelled from the spec: the immutable effect-description tree (§3, §4.2).
`flatMap` is the continuation-passing sequencing node; `catchAll` is the
primitive failure handler from which tag dispatch (`catchTags`) is defined;
`withSpan` is the span-wrap primitive; `sleep` is the suspension point;
`annotateCurrentSpan` merges attributes into the ambient span; `log` and `now`
are the logging and clock-reading leaves used by the repository's code. -/
inductive Effect (E : Type) : Type → Type 1 where
  | succeed {A : Type} : A → Effect E A
  | fail {A : Type} : E → Effect E A
  | die {A : Type} : E → Effect E A
  | flatMap {A B : Type} : Effect E A → (A → Effect E B) → Effect E B
  | catchAll {A : Type} : Effect E A → (E → Effect E A) → Effect E A
  | sleep : Nat → Effect E Unit
  | withSpan {A : Type} : String → List (String × String) → Effect E A → Effect E A
  | annotateCurrentSpan : List (String × String) → Effect E Unit
  | log : String → Effect E Unit
  | now : Effect E Nat

/-- Modelled from the spec: the status recorded when a span closes: error iff
the wrapped description terminated in Failure or Defect (§4.2 span-wrap). -/
def spanStatusOf {E A : Type} : RunResult E A → SpanStatus
  | .failure _ => .error
  | .defect _ => .error
  | .success _ => .ok
  | .interrupted => .ok

/-- Modelled from the spec: the interpreter (§4.5).  It walks the description,
short-circuits `flatMap` on non-Success, dispatches `catchAll` on Failure only,
pushes a span on entering `withSpan` and pops/records exactly one span on exit
(status from the terminal outcome), suspends at `sleep` (cancelling the run
when the budget is exhausted), and applies annotations to the ambient span
(no-op when none is active). -/
def runE {E : Type} : {A : Type} → Effect E A → RunState → RunResult E A × RunState
  | _, .succeed a, s => (.success a, s)
  | _, .fail e, s => (.failure e, s)
  | _, .die c, s => (.defect c, s)
  | _, .flatMap d f, s =>
    match runE d s with
    | (.success a, s') => runE (f a) s'
    | (.failure e, s') => (.failure e, s')
    | (.defect c, s') => (.defect c, s')
    | (.interrupted, s') => (.interrupted, s')
  | _, .catchAll d h, s =>
    match runE d s with
    | (.success a, s') => (.success a, s')
    | (.failure e, s') => runE (h e) s'
    | (.defect c, s') => (.defect c, s')
    | (.interrupted, s') => (.interrupted, s')
  | _, .sleep n, s =>
    if s.fuel = 0 then (.interrupted, s)
    else (.success (), { s with clock := s.clock + n, fuel := s.fuel - 1 })
  | _, .withSpan nm attrs d, s =>
    match runE d { s with stack := ⟨nm, attrs⟩ :: s.stack } with
    | (r, s2) =>
      match s2.stack with
      | sp :: rest =>
        (r, { s2 with stack := rest, closed := ⟨sp.name, sp.attrs, spanStatusOf r⟩ :: s2.closed })
      | [] => (r, s2)
  | _, .annotateCurrentSpan kvs, s =>
    match s.stack with
    | sp :: rest => (.success (), { s with stack := ⟨sp.name, sp.attrs ++ kvs⟩ :: rest })
    | [] => (.success (), s)
  | _, .log m, s => (.success (), { s with log := s.log ++ [m] })
  | _, .now, s => (.success s.clock, s)

namespace Effect

/-- Modelled from the spec: `map(desc, f)` transforms the Success value only
(§4.2); as in the source library it is sequencing with a pure continuation. -/
def map {E A B : Type} (d : Effect E A) (f : A → B) : Effect E B :=
  .flatMap d (fun a => .succeed (f a))

/-- Modelled from the spec: `catchKind` (`Effect.catchTags` in the sources):
for each named error kind a handler may be supplied; a Failure whose kind has a
handler runs the handler's description in its place, kinds without a handler
re-raise the original Failure unchanged (§4.2). -/
def catchKind {E A : Type} (d : Effect E A) (handlers : E → Option (Effect E A)) : Effect E A :=
  .catchAll d (fun e => (handlers e).getD (.fail e))

/-- Modelled from the spec: the either-style conversion (`Effect.either` in the
sources): Success becomes ok, a typed Failure becomes err, and a Defect is not
absorbed into the typed channel (§4.1). -/
def either {E A : Type} (d : Effect E A) : Effect E (Sum E A) :=
  .catchAll (map d Sum.inr) (fun e => .succeed (Sum.inl e))

end Effect

theorem runE_succeed {E A : Type} (a : A) (s : RunState) :
    runE (E := E) (.succeed a) s = (.success a, s) := rfl

theorem runE_fail {E A : Type} (e : E) (s : RunState) :
    runE (A := A) (.fail e) s = (.failure e, s) := rfl

theorem runE_die {E A : Type} (c : E) (s : RunState) :
    runE (A := A) (.die c) s = (.defect c, s) := rfl

theorem runE_flatMap {E A B : Type} (d : Effect E A) (f : A → Effect E B) (s : RunState) :
    runE (.flatMap d f) s =
      match runE d s with
      | (.success a, s') => runE (f a) s'
      | (.failure e, s') => (.failure e, s')
      | (.defect c, s') => (.defect c, s')
      | (.interrupted, s') => (.interrupted, s') := by
  simp only [runE]

theorem runE_catchAll {E A : Type} (d : Effect E A) (h : E → Effect E A) (s : RunState) :
    runE (.catchAll d h) s =
      match runE d s with
      | (.success a, s') => (.success a, s')
      | (.failure e, s') => runE (h e) s'
      | (.defect c, s') => (.defect c, s')
      | (.interrupted, s') => (.interrupted, s') := by
  simp only [runE]

theorem runE_withSpan {E A : Type} (nm : String) (attrs : List (String × String))
    (d : Effect E A) (s : RunState) :
    runE (.withSpan nm attrs d) s =
      match runE d { s with stack := ⟨nm, attrs⟩ :: s.stack } with
      | (r, s2) =>
        match s2.stack with
        | sp :: rest =>
          (r, { s2 with stack := rest,
                        closed := ⟨sp.name, sp.attrs, spanStatusOf r⟩ :: s2.closed })
        | [] => (r, s2) := rfl

theorem runE_map {E A B : Type} (d : Effect E A) (f : A → B) (s : RunState) :
    runE (Effect.map d f) s =
      ((match (runE d s).1 with
        | .success a => .success (f a)
        | .failure e => .failure e
        | .defect c => .defect c
        | .interrupted => .interrupted), (runE d s).2) := by
  rcases h : runE d s with ⟨r, s'⟩
  cases r <;> simp [Effect.map, runE_flatMap, h, runE_succeed]

theorem runE_catchKind {E A : Type} (d : Effect E A) (handlers : E → Option (Effect E A))
    (s : RunState) :
    runE (Effect.catchKind d handlers) s =
      match runE d s with
      | (.success a, s') => (.success a, s')
      | (.failure e, s') =>
        (match handlers e with
         | some hd => runE hd s'
         | none => (.failure e, s'))
      | (.defect c, s') => (.defect c, s')
      | (.interrupted, s') => (.interrupted, s') := by
  rcases h : runE d s with ⟨r, s'⟩
  cases r <;> simp only [Effect.catchKind, runE_catchAll, h]
  rename_i e
  cases hh : handlers e <;> simp [hh, runE_fail, Option.getD]

theorem runE_either {E A : Type} (d : Effect E A) (s : RunState) :
    runE (Effect.either d) s =
      match runE d s with
      | (.success a, s') => (.success (Sum.inr a), s')
      | (.failure e, s') => (.success (Sum.inl e), s')
      | (.defect c, s') => (.defect c, s')
      | (.interrupted, s') => (.interrupted, s') := by
  rcases h : runE d s with ⟨r, s'⟩
  cases r <;> simp [Effect.either, runE_catchAll, runE_map, h, runE_succeed]

/-- Appending attributes to the head span of a stack, if any; the shape every
single run leaves the ambient span stack in. -/
def attachHead (st : List OpenSpan) (extra : List (String × String)) : List OpenSpan :=
  match st with
  | [] => []
  | sp :: rest => ⟨sp.name, sp.attrs ++ extra⟩ :: rest

theorem attachHead_nil (st : List OpenSpan) : attachHead st [] = st := by
  cases st <;> simp [attachHead]

theorem attachHead_attachHead (st : List OpenSpan) (e₁ e₂ : List (String × String)) :
    attachHead (attachHead st e₁) e₂ = attachHead st (e₁ ++ e₂) := by
  cases st <;> simp [attachHead, List.append_assoc]

/-- A run never pops below the ambient span stack it started with: it leaves
the stack it was given, except that attributes may have been merged into the
ambient (head) span.  In particular every span pushed inside the run has been
popped again. -/
theorem runE_stack_shape {E : Type} :
    ∀ {A : Type} (d : Effect E A) (s : RunState),
      ∃ extra, ((runE d s).2).stack = attachHead s.stack extra := by
  intro A d
  induction d with
  | succeed a => exact fun s => ⟨[], by simp [runE_succeed, attachHead_nil]⟩
  | fail e => exact fun s => ⟨[], by simp [runE_fail, attachHead_nil]⟩
  | die c => exact fun s => ⟨[], by simp [runE_die, attachHead_nil]⟩
  | flatMap d f ihd ihf =>
    intro s
    obtain ⟨e₁, h₁⟩ := ihd s
    rcases hr : runE d s with ⟨r, s'⟩
    rw [hr] at h₁
    cases r with
    | success a =>
      obtain ⟨e₂, h₂⟩ := ihf a s'
      exact ⟨e₁ ++ e₂, by
        simp only [runE_flatMap, hr]
        rw [h₂, h₁, attachHead_attachHead]⟩
    | failure e => exact ⟨e₁, by simp only [runE_flatMap, hr]; exact h₁⟩
    | defect c => exact ⟨e₁, by simp only [runE_flatMap, hr]; exact h₁⟩
    | interrupted => exact ⟨e₁, by simp only [runE_flatMap, hr]; exact h₁⟩
  | catchAll d h ihd ihh =>
    intro s
    obtain ⟨e₁, h₁⟩ := ihd s
    rcases hr : runE d s with ⟨r, s'⟩
    rw [hr] at h₁
    cases r with
    | success a => exact ⟨e₁, by simp only [runE_catchAll, hr]; exact h₁⟩
    | failure e =>
      obtain ⟨e₂, h₂⟩ := ihh e s'
      exact ⟨e₁ ++ e₂, by
        simp only [runE_catchAll, hr]
        rw [h₂, h₁, attachHead_attachHead]⟩
    | defect c => exact ⟨e₁, by simp only [runE_catchAll, hr]; exact h₁⟩
    | interrupted => exact ⟨e₁, by simp only [runE_catchAll, hr]; exact h₁⟩
  | sleep n =>
    intro s
    by_cases hf : s.fuel = 0
    · exact ⟨[], by simp [runE, hf, attachHead_nil]⟩
    · exact ⟨[], by simp [runE, hf, attachHead_nil]⟩
  | withSpan nm attrs d ihd =>
    intro s
    obtain ⟨e₁, h₁⟩ := ihd { s with stack := ⟨nm, attrs⟩ :: s.stack }
    rcases hr : runE d { s with stack := ⟨nm, attrs⟩ :: s.stack } with ⟨r, s2⟩
    rw [hr] at h₁
    simp only [attachHead] at h₁
    refine ⟨[], ?_⟩
    simp only [runE_withSpan, hr, h₁, attachHead_nil]
  | annotateCurrentSpan kvs =>
    intro s
    rcases hst : s.stack with _ | ⟨sp, rest⟩
    · exact ⟨kvs, by simp [runE, hst, attachHead]⟩
    · exact ⟨kvs, by simp [runE, hst, attachHead]⟩
  | log m => exact fun s => ⟨[], by simp [runE, attachHead_nil]⟩
  | now => exact fun s => ⟨[], by simp [runE, attachHead_nil]⟩

/-- The closed set of typed error kinds of `tracing-example.ts`
(`Data.TaggedError` classes `UserNotFound`, `ValidationError`,
`DatabaseError`). -/
inductive AppError where
  | UserNotFound (userId : String)
  | ValidationError (field : String) (message : String)
  | DatabaseError (operation : String) (details : String)
deriving DecidableEq, Repr

/-- The `message` getter of the `UserNotFound` error class. -/
def AppError.userNotFoundMessage (userId : String) : String :=
  "User with ID " ++ userId ++ " not found"

/-- The user record produced by `userRepository.findById`. -/
structure User where
  id : String
  name : String
  email : String
  createdAt : String
deriving DecidableEq, Repr

/-- The record produced by `processUserData` (the user record spread together
with `processed` and `timestamp`). -/
structure ProcessedUser where
  id : String
  name : String
  email : String
  createdAt : String
  processed : Bool
  timestamp : String
deriving DecidableEq, Repr

/-- `Effect.logInfo` of the sources: a log line at info level. -/
def logInfo {E : Type} (m : String) : Effect E Unit := .log ("INFO: " ++ m)

/-- `Effect.logWarning` of the sources: a log line at warning level. -/
def logWarning {E : Type} (m : String) : Effect E Unit := .log ("WARN: " ++ m)

/-- `Effect.logError` of the sources: a log line at error level. -/
def logError {E : Type} (m : String) : Effect E Unit := .log ("ERROR: " ++ m)

/-- Dropping leading whitespace characters from a character list. -/
def dropLeadingWs : List Char → List Char
  | [] => []
  | c :: cs => if c.isWhitespace then dropLeadingWs cs else c :: cs

/-- The JS `String.prototype.trim()`: removes whitespace from both ends of the
string (written on the character list so that it evaluates by reduction). -/
def jsTrim (s : String) : String :=
  ⟨(dropLeadingWs (dropLeadingWs s.data).reverse).reverse⟩

namespace userRepository

/-- `userRepository.findById` from `tracing-example.ts`: logs, sleeps 50 ms,
fails with a `DatabaseError` for `"error"`, yields no record for `"404"`, and
otherwise yields the John Doe record (`createdAt` = current clock), all inside
a `db.query` span. -/
def findById (userId : String) : Effect AppError (Option User) :=
  .withSpan "db.query"
    [("db.operation", "SELECT"), ("db.table", "users"), ("userId", userId)]
    (.flatMap (logInfo ("DB: Querying user " ++ userId)) fun _ =>
     .flatMap (.sleep 50) fun _ =>
     if userId = "error" then
       .fail (.DatabaseError "SELECT" "Connection timeout")
     else if userId = "404" then
       .succeed none
     else
       .flatMap .now fun t =>
         .succeed (some ⟨userId, "John Doe", "john@example.com", toString t⟩))

end userRepository

/-- `fetchUserData` from `tracing-example.ts`, parametrised by the repository
capability so that scenarios can state that the lookup is never consulted:
validates the input eagerly, queries the repository, converts `Option.none`
into `UserNotFound`, wraps everything in a `user.fetch` span, and attaches the
`catchTag("DatabaseError", ...)` handler that logs, annotates the current span
and re-fails with the same error. -/
def fetchUserDataWith (repo : String → Effect AppError (Option User))
    (userId : String) : Effect AppError User :=
  Effect.catchKind
    (.withSpan "user.fetch" [("userId", userId)]
      (.flatMap (logInfo ("Fetching user data for: " ++ userId)) fun _ =>
       if userId = "" ∨ jsTrim userId = "" then
         .fail (.ValidationError "userId" "User ID cannot be empty")
       else
         .flatMap (repo userId) fun result =>
           match result with
           | none => .fail (.UserNotFound userId)
           | some user => .succeed user))
    (fun e =>
      match e with
      | .DatabaseError op det =>
        some (.flatMap (logError "Database error occurred") fun _ =>
              .flatMap (.annotateCurrentSpan
                [("error", "true"), ("error.type", "DatabaseError"), ("error.message", det)]) fun _ =>
              .fail (.DatabaseError op det))
      | _ => none)

/-- `fetchUserData` from `tracing-example.ts`, with the concrete repository. -/
def fetchUserData (userId : String) : Effect AppError User :=
  fetchUserDataWith userRepository.findById userId

/-- `processUserData` from `tracing-example.ts`: logs, fails with a
`DatabaseError` for user id `"process-error"`, sleeps 50 ms and returns the
enriched record, inside a `user.process` span. -/
def processUserData (user : User) : Effect AppError ProcessedUser :=
  .withSpan "user.process" [("userId", user.id), ("userName", user.name)]
    (.flatMap (logInfo ("Processing user: " ++ user.name)) fun _ =>
     .flatMap (if user.id = "process-error" then
                 (.fail (.DatabaseError "UPDATE" "Failed to update user status") : Effect AppError Unit)
               else
                 .succeed ()) fun _ =>
     .flatMap (.sleep 50) fun _ =>
     .flatMap .now fun t =>
       .succeed ⟨user.id, user.name, user.email, user.createdAt, true, toString t⟩)

/-- The `Effect.catchTags` handler object at the end of `businessLogic`:
`ValidationError` and `UserNotFound` are logged and re-failed unchanged,
`DatabaseError` is logged and converted into a Defect via `Effect.die`. -/
def blHandlers : AppError → Option (Effect AppError ProcessedUser)
  | .ValidationError field msg =>
    some (.flatMap (logWarning ("Validation failed: " ++ field ++ " - " ++ msg)) fun _ =>
          .fail (.ValidationError field msg))
  | .UserNotFound uid =>
    some (.flatMap (logWarning ("User not found: " ++ uid)) fun _ =>
          .fail (.UserNotFound uid))
  | .DatabaseError op det =>
    some (.flatMap (logError ("Database error: " ++ op ++ " - " ++ det)) fun _ =>
          .die (.DatabaseError op det))

/-- `businessLogic` from `tracing-example.ts`, parametrised by the repository
capability: fetch, process, annotate the current span, inside the
`business.main` span, with the global `catchTags` recovery strategy. -/
def businessLogicWith (repo : String → Effect AppError (Option User))
    (userId : String) : Effect AppError ProcessedUser :=
  Effect.catchKind
    (.withSpan "business.main" []
      (.flatMap (logInfo "Starting business logic") fun _ =>
       .flatMap (fetchUserDataWith repo userId) fun user =>
       .flatMap (processUserData user) fun processed =>
       .flatMap (.annotateCurrentSpan
         [("result.processed", toString processed.processed),
          ("result.timestamp", processed.timestamp),
          ("result.success", "true")]) fun _ =>
       .flatMap (logInfo "Business logic completed") fun _ =>
       .succeed processed))
    blHandlers

/-- `businessLogic` from `tracing-example.ts`, with the concrete repository. -/
def businessLogic (userId : String) : Effect AppError ProcessedUser :=
  businessLogicWith userRepository.findById userId

/-- A repository stub that terminates the run in a Defect if it is ever
consulted; used to state that a scenario never invokes the lookup
capability. -/
def unreachableRepo : String → Effect AppError (Option User) :=
  fun _ => .die (.DatabaseError "UNREACHABLE" "repository consulted")

/-- The initial per-run state: no ambient span, empty trace, clock zero and a
large cancellation budget (the concrete scenarios never exhaust it). -/
def initialState : RunState := ⟨[], [], [], 0, 1000⟩

/-- A JSON value, the shape of the response bodies built by the Hono handlers
with `c.json`. -/
inductive Json where
  | str : String → Json
  | bool : Bool → Json
  | obj : List (String × Json) → Json

/-- An HTTP response as produced by `c.json(body, status)`; `c.json(body)`
defaults the status to 200. -/
structure Response where
  status : Nat
  body : Json

/-- `c.json(body, status)` of the Hono context. -/
def cJson (status : Nat) (body : Json) : Response := ⟨status, body⟩

/-- The JSON serialization of the processed user record (field order as in the
JS object literal). -/
def Json.objOfUser (p : ProcessedUser) : Json :=
  .obj [("id", .str p.id), ("name", .str p.name), ("email", .str p.email),
        ("createdAt", .str p.createdAt), ("processed", .bool p.processed),
        ("timestamp", .str p.timestamp)]

/-- The error-discrimination logic of the `/test/:userId?` handler of
`unnamed/part_001`: after `Effect.either`, a Right is a success payload and a
Left is matched by `instanceof` against the three error classes (400 for
`ValidationError`, 404 for `UserNotFound`, 500 for `DatabaseError`). -/
def respondEither (result : Sum AppError ProcessedUser) : Response :=
  match result with
  | .inr data =>
    cJson 200 (.obj [("success", .bool true), ("data", Json.objOfUser data)])
  | .inl e =>
    match e with
    | .ValidationError field msg =>
      cJson 400 (.obj [("success", .bool false),
        ("error", .obj [("type", .str "ValidationError"), ("field", .str field),
                        ("message", .str msg)])])
    | .UserNotFound uid =>
      cJson 404 (.obj [("success", .bool false),
        ("error", .obj [("type", .str "UserNotFound"),
                        ("message", .str (AppError.userNotFoundMessage uid))])])
    | .DatabaseError op det =>
      cJson 500 (.obj [("success", .bool false),
        ("error", .obj [("type", .str "DatabaseError"), ("operation", .str op),
                        ("details", .str det)])])

/-- The generic internal-fault response of `unnamed/part_001`'s unknown-error
fallback (500, type `UnknownError`). -/
def unknownErrorResponse : Response :=
  cJson 500 (.obj [("success", .bool false),
    ("error", .obj [("type", .str "UnknownError"), ("message", .str "Unknown error")])])

/-- Modelled from the spec: the run-to-completion entry point of the
`/test/:userId?` handler of `unnamed/part_001`.  The success path (inspecting
the Either produced by `Effect.either`) is translated from the source; the
non-success path models the spec's §6 trigger contract that a Defect yields a
generic internal-fault response — in the source this is the `Effect.runPromise`
rejection path, which lives in the absent `effect` library. -/
def testEndpointEither (userId : String) : Response :=
  match (runE (Effect.either (businessLogic userId)) initialState).1 with
  | .success result => respondEither result
  | _ => unknownErrorResponse

/-- The `/test/:userId?` handler pipeline of `unnamed/part_002`: `Effect.map`
wraps the success value in a 200 response, then `Effect.catchTags` maps
`ValidationError` to a 400 response and `UserNotFound` to a 404 response; the
`DatabaseError` handler is commented out in the source, so that kind has no
handler. -/
def testEndpointCatchTags (userId : String) : Effect AppError Response :=
  Effect.catchKind
    (Effect.map (businessLogic userId)
      (fun data => cJson 200 (.obj [("success", .bool true), ("data", Json.objOfUser data)])))
    (fun e =>
      match e with
      | .ValidationError field msg =>
        some (.succeed (cJson 400 (.obj [("success", .bool false),
          ("error", .obj [("type", .str "ValidationError"), ("field", .str field),
                          ("message", .str msg)])])))
      | .UserNotFound uid =>
        some (.succeed (cJson 404 (.obj [("success", .bool false),
          ("error", .obj [("type", .str "UserNotFound"),
                          ("message", .str (AppError.userNotFoundMessage uid))])])))
      | .DatabaseError _ _ => none)

/-- The 404 recovery response used in the ordering example of
`unnamed/part_003` (the `UserNotFound` handler's `c.json(..., 404)`). -/
def notFoundResponse (uid : String) : Response :=
  cJson 404 (.obj [("success", .bool false),
    ("error", .obj [("type", .str "UserNotFound"),
                    ("message", .str (AppError.userNotFoundMessage uid))])])

/-- Serialization of the TS union `ProcessedUser | Response` that arises in
the wrong-order pipeline of `unnamed/part_003`: a user record serializes to
its JSON object, an already-built response contributes its JSON body (this is
the nested document shown in the source's problem analysis). -/
def dataJson : Sum ProcessedUser Response → Json
  | .inl p => Json.objOfUser p
  | .inr r => r.body

/-- The wrong-order pipeline of `unnamed/part_003`: `catchTags` first (its
`UserNotFound` handler recovers with a 404 response), `map` second (wrapping
whatever it receives — recovery value included — in a 200 success envelope).
The TS union upcast `ProcessedUser <= ProcessedUser | Response` is written as
an explicit `map Sum.inl`. -/
def catchThenMap (userId : String) : Effect AppError Response :=
  Effect.map
    (Effect.catchKind
      (Effect.map (businessLogic userId)
        (Sum.inl : ProcessedUser → Sum ProcessedUser Response))
      (fun e =>
        match e with
        | .UserNotFound uid => some (.succeed (Sum.inr (notFoundResponse uid)))
        | _ => none))
    (fun data => cJson 200 (.obj [("success", .bool true), ("data", dataJson data)]))

/-- The right-order pipeline of `unnamed/part_003`: `map` first (it is skipped
on the failing path), `catchTags` second (its `UserNotFound` handler's outcome
is final). -/
def mapThenCatch (userId : String) : Effect AppError Response :=
  Effect.catchKind
    (Effect.map (businessLogic userId)
      (fun data => cJson 200 (.obj [("success", .bool true), ("data", Json.objOfUser data)])))
    (fun e =>
      match e with
      | .UserNotFound uid => some (.succeed (notFoundResponse uid))
      | _ => none)

/-- The `userId` defaulting of every `/test/:userId?` handler variant:
`c.req.param("userId") || "123"` substitutes `"123"` both when the path
parameter is absent and when it is the (falsy) empty string. -/
def effectiveUserId (p : Option String) : String :=
  match p with
  | none => "123"
  | some u => if u = "" then "123" else u

/-- Every failure the `businessLogic` pipeline can surface has already passed
through its final `catchTags`: whatever the wrapped description did, a
surfaced typed Failure was produced by one of the three handlers, and only the
`ValidationError` and `UserNotFound` handlers re-fail (the `DatabaseError`
handler dies). -/
theorem blCatch_failure_kinds (inner : Effect AppError ProcessedUser) (s : RunState)
    (e : AppError) (h : (runE (Effect.catchKind inner blHandlers) s).1 = .failure e) :
    (∃ uid, e = .UserNotFound uid) ∨ (∃ field msg, e = .ValidationError field msg) := by
  rw [runE_catchKind] at h
  rcases hr : runE inner s with ⟨r, s'⟩
  rw [hr] at h
  cases r with
  | success a => simp at h
  | failure e0 =>
    cases e0 with
    | UserNotFound uid =>
      simp only [blHandlers, logWarning, runE_flatMap, runE, RunResult.failure.injEq] at h
      exact Or.inl ⟨uid, h.symm⟩
    | ValidationError field msg =>
      simp only [blHandlers, logWarning, runE_flatMap, runE, RunResult.failure.injEq] at h
      exact Or.inr ⟨field, msg, h.symm⟩
    | DatabaseError op det =>
      simp [blHandlers, logError, runE_flatMap, runE] at h
  | defect c => simp at h
  | interrupted => simp at h

/-- Projection used to separate the two pipeline outcomes of the ordering law:
the HTTP status of a successful outcome. -/
def responseStatusOf : RunResult AppError Response → Nat
  | .success resp => resp.status
  | _ => 0

/-- C1: catch-then-map and map-then-catch are not equivalent.  On input
`"404"` (whose run produces a Failure), piping `catchKind` before `map`
applies the map function to the handler's 404 recovery value, double-wrapping
its body inside a 200 success envelope, whereas piping `map` before
`catchKind` never applies the map function on the failing path and yields
exactly the handler's 404 outcome; the two outcomes differ. -/
theorem catchThenMap_not_equivalent_mapThenCatch :
    (runE (catchThenMap "404") initialState).1
      = .success (cJson 200 (.obj [("success", .bool true),
          ("data", (notFoundResponse "404").body)]))
    ∧ (runE (mapThenCatch "404") initialState).1 = .success (notFoundResponse "404")
    ∧ (runE (catchThenMap "404") initialState).1
        ≠ (runE (mapThenCatch "404") initialState).1 := by
  refine ⟨rfl, rfl, fun hcontra => ?_⟩
  have hs := congrArg responseStatusOf hcontra
  exact absurd hs (by decide)

/-- C2: for every description `d` and function `f`, `map(d, f)` leaves a
Failure or Defect outcome (and the final state) entirely unchanged — the error
value is the identical one — and transforms only a Success value `a` into
`f a`. -/
theorem map_transforms_success_only {E A B : Type} (d : Effect E A) (f : A → B)
    (s : RunState) :
    runE (Effect.map d f) s =
      ((match (runE d s).1 with
        | .success a => .success (f a)
        | .failure e => .failure e
        | .defect c => .defect c
        | .interrupted => .interrupted), (runE d s).2) :=
  runE_map d f s

/-- C3: `catchKind(d, handlers)` run against a Failure whose kind has a
handler yields exactly the outcome of running that handler's description (from
the state the failure left behind); against a Failure of a kind with no
handler supplied, it yields that original Failure unchanged; against a
Success, Defect (or cancelled) outcome it yields it unchanged. -/
theorem catchKind_dispatch_semantics {E A : Type} (d : Effect E A)
    (handlers : E → Option (Effect E A)) (s : RunState) :
    runE (Effect.catchKind d handlers) s =
      match runE d s with
      | (.success a, s') => (.success a, s')
      | (.failure e, s') =>
        (match handlers e with
         | some hd => runE hd s'
         | none => (.failure e, s'))
      | (.defect c, s') => (.defect c, s')
      | (.interrupted, s') => (.interrupted, s') :=
  runE_catchKind d handlers s

/-- C4: the either-style conversion never absorbs a Defect into the typed
error channel: for every run it yields ok (`Sum.inr`) on Success and err
(`Sum.inl e`) on `Failure e`, while a Defect outcome stays a Defect — it is
re-raised past the conversion towards the run boundary, so the err branch can
only ever carry a typed failure. -/
theorem either_never_absorbs_defect {E A : Type} (d : Effect E A) (s : RunState) :
    runE (Effect.either d) s =
      match runE d s with
      | (.success a, s') => (.success (Sum.inr a), s')
      | (.failure e, s') => (.success (Sum.inl e), s')
      | (.defect c, s') => (.defect c, s')
      | (.interrupted, s') => (.interrupted, s') :=
  runE_either d s

/-- C5: on input `userId = "404"` the repository lookup returns no record, the
full pipeline terminates in the typed Failure `UserNotFound "404"` (no other
kind, no Defect), and the HTTP trigger of `unnamed/part_001` maps that Failure
to the not-found (404) response. -/
theorem userId_404_not_found_scenario :
    (runE (userRepository.findById "404") initialState).1 = .success none
    ∧ (runE (businessLogic "404") initialState).1 = .failure (.UserNotFound "404")
    ∧ (runE (Effect.either (businessLogic "404")) initialState).1
        = .success (Sum.inl (.UserNotFound "404"))
    ∧ testEndpointEither "404" = respondEither (Sum.inl (.UserNotFound "404"))
    ∧ (testEndpointEither "404").status = 404 :=
  ⟨rfl, rfl, rfl, rfl, rfl⟩

/-- C6: on the empty-string input the business logic terminates in the typed
Failure `ValidationError "userId"` and the lookup capability is never invoked:
the whole run (outcome and final state) is identical for every repository
implementation, in particular for the stub that would terminate the run in a
Defect if it were ever consulted. -/
theorem empty_userId_validates_eagerly (repo : String → Effect AppError (Option User))
    (s : RunState) :
    runE (businessLogicWith repo "") s = runE (businessLogicWith unreachableRepo "") s
    ∧ (runE (businessLogicWith repo "") s).1
        = .failure (.ValidationError "userId" "User ID cannot be empty") :=
  ⟨rfl, rfl⟩

/-- C7: on input `userId = "error"` the underlying capability's simulated
connection timeout is downgraded by the pipeline's `catchTags` into a terminal
Defect (not a typed Failure), every enclosing span — `business.main`
included — closes with error status, and the HTTP trigger maps the Defect to
the generic internal-fault (500) response. -/
theorem userId_error_defect_scenario :
    (runE (businessLogic "error") initialState).1
      = .defect (.DatabaseError "SELECT" "Connection timeout")
    ∧ ((runE (businessLogic "error") initialState).2).closed.map
        (fun sp => (sp.name, sp.status))
        = [("business.main", .error), ("user.fetch", .error), ("db.query", .error)]
    ∧ testEndpointEither "error" = unknownErrorResponse
    ∧ unknownErrorResponse.status = 500 :=
  ⟨rfl, rfl, rfl, rfl⟩

/-- C8: every `withSpan` closes exactly one span per span it opens: the
wrapped run's outcome is passed through unchanged, exiting restores exactly
the enclosing span stack (the immediately enclosing span becomes current
again), precisely one new closed-span record is produced on top of whatever
the wrapped description closed, and its status is error if and only if the
wrapped description terminated in Failure or Defect — for every description,
including ones that suspend internally or are cancelled mid-flight, and from
every starting state. -/
theorem withSpan_closes_exactly_one_span {E A : Type} (nm : String)
    (attrs : List (String × String)) (d : Effect E A) (s : RunState) :
    (runE (.withSpan nm attrs d) s).1
      = (runE d { s with stack := ⟨nm, attrs⟩ :: s.stack }).1
    ∧ ((runE (.withSpan nm attrs d) s).2).stack = s.stack
    ∧ (∃ finalAttrs,
        ((runE (.withSpan nm attrs d) s).2).closed
          = ⟨nm, finalAttrs, spanStatusOf (runE (.withSpan nm attrs d) s).1⟩
              :: ((runE d { s with stack := ⟨nm, attrs⟩ :: s.stack }).2).closed)
    ∧ (spanStatusOf (runE (.withSpan nm attrs d) s).1 = .error ↔
        (∃ e, (runE (.withSpan nm attrs d) s).1 = .failure e)
        ∨ (∃ c, (runE (.withSpan nm attrs d) s).1 = .defect c)) := by
  obtain ⟨extra, hshape⟩ := runE_stack_shape d { s with stack := ⟨nm, attrs⟩ :: s.stack }
  rcases hr : runE d { s with stack := ⟨nm, attrs⟩ :: s.stack } with ⟨r, s2⟩
  rw [hr] at hshape
  simp only [attachHead] at hshape
  have hw : runE (.withSpan nm attrs d) s
      = (r, { s2 with stack := s.stack,
                      closed := ⟨nm, attrs ++ extra, spanStatusOf r⟩ :: s2.closed }) := by
    simp only [runE_withSpan, hr, hshape]
  refine ⟨by rw [hw], by rw [hw], ⟨attrs ++ extra, by rw [hw]⟩, ?_⟩
  rw [hw]
  cases r <;> simp [spanStatusOf]

/-- C9: for every userId and every starting state, the typed failure channel
of `businessLogic` contains only the `UserNotFound` and `ValidationError`
kinds — the final `catchTags` converts every `DatabaseError` into a Defect via
`die` — and consequently the `instanceof DatabaseError` branch of the
`unnamed/part_001` trigger, which inspects the `Sum.inl` payload produced by
the either conversion, can never be taken. -/
theorem businessLogic_failure_channel_excludes_databaseError (u : String) (s : RunState) :
    (∀ e, (runE (businessLogic u) s).1 = .failure e →
        (∃ uid, e = .UserNotFound uid) ∨ (∃ field msg, e = .ValidationError field msg))
    ∧ (∀ op det, (runE (Effect.either (businessLogic u)) s).1
        ≠ .success (Sum.inl (.DatabaseError op det))) := by
  constructor
  · intro e h
    exact blCatch_failure_kinds _ s e h
  · intro op det hcontra
    rw [runE_either] at hcontra
    rcases hr : runE (businessLogic u) s with ⟨r, s'⟩
    rw [hr] at hcontra
    cases r with
    | success a => simp at hcontra
    | failure e0 =>
      simp only [RunResult.success.injEq, Sum.inl.injEq] at hcontra
      have hkinds := blCatch_failure_kinds _ s e0
        (show (runE (businessLogic u) s).1 = .failure e0 by rw [hr])
      rcases hkinds with ⟨uid, he⟩ | ⟨field, msg, he⟩ <;> rw [he] at hcontra <;> simp at hcontra
    | defect c => simp at hcontra
    | interrupted => simp at hcontra

/-- C9 witness: at input `"404"` and the initial state the pipeline does
terminate in a typed Failure, and the theorem classifies it. -/
theorem businessLogic_failure_channel_excludes_databaseError_witness :
    (∃ uid, (AppError.UserNotFound "404") = .UserNotFound uid)
    ∨ (∃ field msg, (AppError.UserNotFound "404") = .ValidationError field msg) :=
  (businessLogic_failure_channel_excludes_databaseError "404" initialState).1
    (.UserNotFound "404") rfl

/-- C10 counterexample: the claim that the Validation failure branch of
`fetchUserData` is unreachable through the `/test` endpoint is false: the
whitespace-only path parameter `" "` is neither absent nor empty, so the
handler passes it through unchanged (no `"123"` substitution), and the run
terminates in the `ValidationError "userId"` Failure, which the
`unnamed/part_002` pipeline maps to the 400 validation response. -/
theorem trigger_default_userId_counterexample :
    effectiveUserId (some " ") = " "
    ∧ (runE (businessLogic (effectiveUserId (some " "))) initialState).1
        = .failure (.ValidationError "userId" "User ID cannot be empty")
    ∧ (runE (testEndpointCatchTags (effectiveUserId (some " "))) initialState).1
        = .success (cJson 400 (.obj [("success", .bool false),
            ("error", .obj [("type", .str "ValidationError"), ("field", .str "userId"),
                            ("message", .str "User ID cannot be empty")])])) :=
  ⟨rfl, rfl, rfl⟩

/-- C10 (amended): every HTTP trigger variant substitutes `"123"` when the
userId path parameter is absent or empty (`c.req.param("userId") || "123"`),
so the effective userId is never the empty string and the Validation failure
cannot be triggered by an absent or empty parameter: a request with no userId
behaves exactly like a request for user `"123"` and returns the success
response.  The Validation branch itself remains reachable through the
endpoint, via a whitespace-only (non-empty, hence not substituted) userId. -/
theorem trigger_default_userId_amended :
    (∀ p, 0 < (effectiveUserId p).length)
    ∧ effectiveUserId none = "123"
    ∧ effectiveUserId (some "") = "123"
    ∧ (runE (businessLogic (effectiveUserId none)) initialState).1
        = .success ⟨"123", "John Doe", "john@example.com", "50", true, "100"⟩
    ∧ (runE (testEndpointCatchTags (effectiveUserId none)) initialState).1
        = .success (cJson 200 (.obj [("success", .bool true),
            ("data", Json.objOfUser ⟨"123", "John Doe", "john@example.com", "50", true, "100"⟩)]))
    ∧ (runE (businessLogic (effectiveUserId (some " "))) initialState).1
        = .failure (.ValidationError "userId" "User ID cannot be empty") := by
  refine ⟨?_, rfl, rfl, rfl, rfl, rfl⟩
  intro p
  cases p with
  | none => decide
  | some u =>
    by_cases h : u = ""
    · subst h; decide
    · simp only [effectiveUserId, if_neg h]
      cases u with
      | mk data =>
        cases data with
        | nil => exact absurd rfl h
        | cons c cs => simp [String.length]
